import Mathlib

/-!
# WellCare hospital management system: a verification development

A shallow embedding, in Lean 4, of the WellCare hospital-management
controller (`hospitalController.js`), its Mongoose schemas
(`patientModel.js`, `testsModel.js`) and the JavaScript value semantics
the controller relies on, together with theorems settling the
specification's claims about it.

The embedding is organised as follows.

* JavaScript string/number semantics used by the controller:
  `String.prototype.split`, `Number()` coercion (which yields `NaN`, never
  an exception, on unparsable input) and the comparison operators, which
  evaluate to `false` whenever an operand is `NaN` or `undefined`.
  A parsed number is represented exactly as a scaled integer
  `num / 10 ^ exp` (`Dec`); `NaN`/`undefined` is `Option.none`.
* The data model: `Patient` and `Test` records mirroring the two Mongoose
  schemas, and a database state `DB` holding both collections plus a
  clock (for the `Date.now` default of `testSchema.date`) and an id
  counter.
* The controller operations, one Lean function per exported controller
  function, each returning the HTTP-level response together with the
  successor database state.
-/

namespace WellCare

/-! ## JavaScript value semantics -/

/-- JavaScript `String.prototype.split(sep)` on the character list of the
string: splitting `""` yields `[""]`, and adjacent separators yield empty
components, exactly as in JS. -/
def jsSplit (sep : Char) : List Char → List (List Char)
  | [] => [[]]
  | c :: rest =>
    let r := jsSplit sep rest
    if c = sep then [] :: r
    else
      match r with
      | [] => [[c]]
      | h :: t => (c :: h) :: t

/-- An exactly represented decimal number `num / 10 ^ exp`, the result of a
successful JavaScript `Number()` coercion of a decimal numeral string. -/
structure Dec where
  num : Int
  exp : Nat
deriving DecidableEq

/-- The rational value denoted by a `Dec`. -/
def Dec.toRat (d : Dec) : ℚ := (d.num : ℚ) / 10 ^ d.exp

/-- The natural number denoted by a list of decimal digit characters. -/
def digitsToNat (cs : List Char) : Nat :=
  cs.foldl (fun a c => 10 * a + (c.toNat - 48)) 0

/-- Strip leading and trailing whitespace, as `Number()` does before
parsing. -/
def trimChars (cs : List Char) : List Char :=
  ((cs.dropWhile Char.isWhitespace).reverse.dropWhile Char.isWhitespace).reverse

/-- The unsigned decimal numeral part of `Number()`: digits, optionally
with a single decimal point (either side of which may be empty, but not
both). -/
def parseUnsignedDec (body : List Char) : Option Dec :=
  match jsSplit '.' body with
  | [ds] =>
    if !ds.isEmpty && ds.all Char.isDigit then some ⟨digitsToNat ds, 0⟩
    else none
  | [is, fs] =>
    if (!is.isEmpty || !fs.isEmpty) && is.all Char.isDigit && fs.all Char.isDigit then
      some ⟨digitsToNat is * 10 ^ fs.length + digitsToNat fs, fs.length⟩
    else none
  | _ => none

/-- JavaScript `Number()` coercion of a string, modelled on optionally
signed decimal numerals: the result is the exact decimal value, `some 0`
on a whitespace-only string, and `none` (standing for `NaN`) on any other
input. (Exotic numeral syntaxes — hex, exponents, `Infinity` — are outside
the fragment the controller's data ever exercises; on them, as on all
unparsable strings, real `Number()` never throws.) -/
def jsNumber (cs : List Char) : Option Dec :=
  let t := trimChars cs
  if t.isEmpty then some ⟨0, 0⟩
  else
    match t with
    | '-' :: r => (parseUnsignedDec r).map fun d => ⟨-d.num, d.exp⟩
    | '+' :: r => parseUnsignedDec r
    | _ => parseUnsignedDec t

/-- Exact comparison `d > c` against an integer threshold `c`. -/
def Dec.gtInt (d : Dec) (c : Int) : Bool := decide (c * 10 ^ d.exp < d.num)

/-- Exact comparison `d < c` against an integer threshold `c`. -/
def Dec.ltInt (d : Dec) (c : Int) : Bool := decide (d.num < c * 10 ^ d.exp)

/-- JavaScript `x > c` where `x` may be `NaN` or `undefined` (both
`none`): comparisons against `NaN`/`undefined` are `false`. -/
def jsGt (x : Option Dec) (c : Int) : Bool :=
  match x with
  | some d => d.gtInt c
  | none => false

/-- JavaScript `x < c` where `x` may be `NaN` or `undefined` (both
`none`): comparisons against `NaN`/`undefined` are `false`. -/
def jsLt (x : Option Dec) (c : Int) : Bool :=
  match x with
  | some d => d.ltInt c
  | none => false

/-- JavaScript array indexing collapsed to the comparison-relevant value:
an out-of-range index yields `undefined`, which compares exactly as `NaN`
does, so both are `none`. -/
def jsIdx (l : List (Option Dec)) (i : Nat) : Option Dec :=
  (l.get? i).join

/-! ## The critical-condition classification

`updatePatientCriticalCondition`'s `switch` on the latest test, as a pure
function of the test's type and value. -/

/-- The `case 'Blood Pressure'` branch:
`const [systolic, diastolic] = latestTest.value.split('/').map(Number);`
then `systolic > 180 || systolic < 90 || diastolic > 120 || diastolic < 60`. -/
def bloodPressureCritical (v : String) : Bool :=
  let nums := (jsSplit '/' v.toList).map jsNumber
  let systolic := jsIdx nums 0
  let diastolic := jsIdx nums 1
  jsGt systolic 180 || jsLt systolic 90 || jsGt diastolic 120 || jsLt diastolic 60

/-- The `switch (latestTest.type)` of `updatePatientCriticalCondition`:
the classification of one test reading, `false` when no `case` matches. -/
def criticalOf (ty v : String) : Bool :=
  if ty = "Blood Pressure" then
    bloodPressureCritical v
  else if ty = "Respiratory Rate" then
    let rate := jsNumber v.toList
    jsGt rate 30 || jsLt rate 12
  else if ty = "Blood Oxygen Level" then
    let oxygenLevel := jsNumber v.toList
    jsLt oxygenLevel 90
  else if ty = "Heartbeat Rate" then
    let heartRate := jsNumber v.toList
    jsGt heartRate 100 || jsLt heartRate 60
  else
    false

/-! ## Data model

One record type per Mongoose schema. MongoDB document ids and timestamps
are modelled as naturals; `_id` values are unique in a collection (the
database generates them, and the embedding does too, from a fresh
counter). -/

/-- A document of the `Patient` collection (`patientModel.js`): name, age
and gender are required; address and phone number optional; the
critical-condition flag defaults to `false`. -/
structure Patient where
  id : Nat
  name : String
  age : Nat
  gender : String
  address : Option String
  phoneNumber : Option String
  medicalHistory : List String
  criticalCondition : Bool
deriving DecidableEq

/-- A document of the `Test` collection (`testsModel.js`): the owning
patient reference and the value are required, the date defaults to the
insertion time, and the type is restricted by the schema `enum` to four
values. -/
structure Test where
  id : Nat
  patientId : Nat
  date : Nat
  type : String
  value : String
deriving DecidableEq

/-- The `enum` of `testSchema.type`. -/
def validTestTypes : List String :=
  ["Blood Pressure", "Respiratory Rate", "Blood Oxygen Level", "Heartbeat Rate"]

/-- The database: both collections, the id generator and the clock that
stamps `Date.now` defaults. -/
structure DB where
  patients : List Patient
  tests : List Test
  nextId : Nat
  clock : Nat
deriving DecidableEq

/-- Lookup `Patient.findById`. -/
def findPatient (db : DB) (pid : Nat) : Option Patient :=
  db.patients.find? fun p => p.id == pid

/-- Lookup `Test.findById`. -/
def findTest (db : DB) (tid : Nat) : Option Test :=
  db.tests.find? fun t => t.id == tid

/-- The comparator of `.sort({ date: -1 })`: later dates first. -/
def dateDesc (a b : Test) : Prop := b.date ≤ a.date

instance : DecidableRel dateDesc := fun a b => Nat.decLe b.date a.date

instance : IsTotal Test dateDesc := ⟨fun a b => Nat.le_total b.date a.date⟩

instance : IsTrans Test dateDesc := ⟨fun _ _ _ hab hbc => Nat.le_trans hbc hab⟩

/-- Sorting `.sort({ date: -1 })` applied to a list of test documents. -/
def sortByDateDesc (l : List Test) : List Test := List.insertionSort dateDesc l

/-- Query `Test.find({ patientId }).sort({ date: -1 }).limit(1)` followed by
taking `recentTests[0]`: the patient's most recent test, if any. -/
def mostRecentTestFor (db : DB) (pid : Nat) : Option Test :=
  (sortByDateDesc (db.tests.filter fun t => t.patientId == pid)).head?

/-- The schema validation `test.save()` runs: the type must be one of the
`enum` values and the required string `value` must be non-empty (Mongoose's
`required` rejects the empty string). -/
def testSchemaValid (t : Test) : Bool :=
  validTestTypes.contains t.type && t.value != ""

/-! ## HTTP responses -/

/-- The controller's response surface: the JSON payload tagged with the
status code family it is sent under. -/
inductive Resp (α : Type)
  | ok (a : α)
  | created (a : α)
  | badRequest (msg : String)
  | notFound (msg : String)
deriving DecidableEq

/-- The HTTP status code of a response. -/
def Resp.status {α : Type} : Resp α → Nat
  | .ok _ => 200
  | .created _ => 201
  | .badRequest _ => 400
  | .notFound _ => 404

/-! ## Controller operations

Each controller function becomes a Lean function from the request's data
and the database state to the response together with the successor state.
`findByIdAndUpdate` touches exactly the matched document (ids are unique),
which the embedding renders as a guarded map; `findByIdAndDelete` removes
the matched document, rendered as a filter on the id. -/

/-- The request body of `POST /patients/:id/tests`. The controller reads
only `req.body.type` and `req.body.value`; a client-supplied `date` or
`patientId`, modelled by the remaining two fields, is never consulted. -/
structure AddTestBody where
  type : String
  value : String
  date : Option Nat := none
  patientId : Option Nat := none
deriving DecidableEq

/-- The test document `addTestForPatient` constructs: owning patient from
the path, type and value from the body, the date from the schema's
`Date.now` default at insertion time. -/
def mkNewTest (db : DB) (pid : Nat) (body : AddTestBody) : Test :=
  { id := db.nextId, patientId := pid, date := db.clock
    type := body.type, value := body.value }

/-- Controller helper `updatePatientCriticalCondition(patientId)`: classify the patient's
most recent test (if any) and write the resulting flag onto the patient
document; with no tests, or no such patient, the state is unchanged. -/
def updatePatientCriticalCondition (db : DB) (pid : Nat) : DB :=
  match mostRecentTestFor db pid with
  | none => db
  | some latestTest =>
    let isCritical := criticalOf latestTest.type latestTest.value
    { db with
      patients := db.patients.map fun p =>
        if p.id == pid then { p with criticalCondition := isCritical } else p }

/-- Controller `addTestForPatient`: build the test from the path id and the body's
type and value, save it (schema validation failing with a 400), then
synchronously recompute the patient's critical flag, and answer 201 with
the new test. -/
def addTestForPatient (db : DB) (pid : Nat) (body : AddTestBody) :
    Resp Test × DB :=
  let t := mkNewTest db pid body
  if testSchemaValid t then
    let db1 : DB :=
      { db with tests := db.tests ++ [t], nextId := db.nextId + 1, clock := db.clock + 1 }
    (Resp.created t, updatePatientCriticalCondition db1 pid)
  else
    (Resp.badRequest "Test validation failed", db)

/-- The record shape produced by
`.select('type value date createdAt updatedAt')`: the requested fields
that exist in the schema (`testSchema` declares no `createdAt` or
`updatedAt`, so none is ever present to return) plus `_id`, which an
inclusive MongoDB projection keeps by default. -/
structure TestView where
  id : Nat
  type : String
  value : String
  date : Nat
deriving DecidableEq

/-- The projection of one test document under the controller's `select`. -/
def projectTest (t : Test) : TestView :=
  { id := t.id, type := t.type, value := t.value, date := t.date }

/-- Controller `getTestsForPatient`: the patient's tests, projected and sorted
newest-first. -/
def getTestsForPatient (db : DB) (pid : Nat) : Resp (List TestView) × DB :=
  (Resp.ok ((sortByDateDesc (db.tests.filter fun t => t.patientId == pid)).map projectTest),
   db)

/-- The request body of `PUT /patients/:id/tests/:testId`: a partial test
document; `_id` is immutable and not part of an update. -/
structure TestUpdate where
  type : Option String := none
  value : Option String := none
  date : Option Nat := none
  patientId : Option Nat := none
deriving DecidableEq

/-- Merging an update payload into a test document, as
`findByIdAndUpdate` does field by field. -/
def applyTestUpdate (u : TestUpdate) (t : Test) : Test :=
  { t with
    type := u.type.getD t.type
    value := u.value.getD t.value
    date := u.date.getD t.date
    patientId := u.patientId.getD t.patientId }

/-- The `runValidators: true` check on a test update: each supplied path
is validated against the schema (the type against the `enum`, the value
against `required`). -/
def testUpdateValid (u : TestUpdate) : Bool :=
  (match u.type with
   | some ty => validTestTypes.contains ty
   | none => true) &&
  (match u.value with
   | some v => v != ""
   | none => true)

/-- Controller `updateTest`: merge the payload into the test matched by id.
Mongoose runs the `runValidators: true` update validators on the payload
client-side, before the query executes, so an invalid payload answers 400
even when the id matches nothing; with a valid payload, an unmatched id
answers 404. The patient collection is never touched and no critical-flag
recomputation runs. -/
def updateTest (db : DB) (tid : Nat) (u : TestUpdate) : Resp Test × DB :=
  if testUpdateValid u then
    match findTest db tid with
    | none => (Resp.notFound "Test not found", db)
    | some t =>
      (Resp.ok (applyTestUpdate u t),
       { db with
         tests := db.tests.map fun x =>
           if x.id == tid then applyTestUpdate u x else x })
  else
    (Resp.badRequest "Test validation failed", db)

/-- Controller `deleteTest`: remove the test matched by id, 404 when absent; the
patient collection is never touched and no critical-flag recomputation
runs. -/
def deleteTest (db : DB) (tid : Nat) : Resp String × DB :=
  match findTest db tid with
  | none => (Resp.notFound "Test not found", db)
  | some _ =>
    (Resp.ok "Test deleted successfully",
     { db with tests := db.tests.filter fun t => t.id != tid })

/-- Controller `getTestById`: one test or 404. -/
def getTestById (db : DB) (tid : Nat) : Resp Test × DB :=
  match findTest db tid with
  | none => (Resp.notFound "Test not found", db)
  | some t => (Resp.ok t, db)

/-- The request body of `POST /patients`. Optional schema fields may be
absent; `criticalCondition` defaults to `false` when not supplied (the
endpoint does let a client supply it). -/
structure PatientBody where
  name : String := ""
  age : Option Nat := none
  gender : String := ""
  address : Option String := none
  phoneNumber : Option String := none
  medicalHistory : List String := []
  criticalCondition : Option Bool := none
deriving DecidableEq

/-- The schema validation `patient.save()` runs: name, age and gender are
required (`required` rejects empty strings and absent numbers). -/
def patientBodyValid (b : PatientBody) : Bool :=
  b.name != "" && b.age.isSome && b.gender != ""

/-- Controller `addPatient`: persist the payload with a generated id, 201 on
success, 400 on validation failure. -/
def addPatient (db : DB) (b : PatientBody) : Resp Patient × DB :=
  if patientBodyValid b then
    let p : Patient :=
      { id := db.nextId, name := b.name, age := b.age.getD 0, gender := b.gender
        address := b.address, phoneNumber := b.phoneNumber
        medicalHistory := b.medicalHistory
        criticalCondition := b.criticalCondition.getD false }
    (Resp.created p, { db with patients := db.patients ++ [p], nextId := db.nextId + 1 })
  else
    (Resp.badRequest "Patient validation failed", db)

/-- Controller `getAllPatients`. -/
def getAllPatients (db : DB) : Resp (List Patient) × DB :=
  (Resp.ok db.patients, db)

/-- Controller `getPatientById`: one patient or 404. -/
def getPatientById (db : DB) (pid : Nat) : Resp Patient × DB :=
  match findPatient db pid with
  | none => (Resp.notFound "Patient not found", db)
  | some p => (Resp.ok p, db)

/-- Controller `getCriticalPatients`, i.e. `Patient.find({ criticalCondition: true })`. -/
def getCriticalPatients (db : DB) : Resp (List Patient) × DB :=
  (Resp.ok (db.patients.filter fun p => p.criticalCondition), db)

/-- Controller `getPatientHistory`: the patient (404 when absent) together with all
their tests newest-first. -/
def getPatientHistory (db : DB) (pid : Nat) :
    Resp (Patient × List Test) × DB :=
  match findPatient db pid with
  | none => (Resp.notFound "Patient not found", db)
  | some p =>
    (Resp.ok (p, sortByDateDesc (db.tests.filter fun t => t.patientId == pid)), db)

/-- The request body of `PUT /patients/:id`: a partial patient document. -/
structure PatientUpdate where
  name : Option String := none
  age : Option Nat := none
  gender : Option String := none
  address : Option String := none
  phoneNumber : Option String := none
  medicalHistory : Option (List String) := none
  criticalCondition : Option Bool := none
deriving DecidableEq

/-- Merging an update payload into a patient document. -/
def applyPatientUpdate (u : PatientUpdate) (p : Patient) : Patient :=
  { p with
    name := u.name.getD p.name
    age := u.age.getD p.age
    gender := u.gender.getD p.gender
    address := u.address.or p.address
    phoneNumber := u.phoneNumber.or p.phoneNumber
    medicalHistory := u.medicalHistory.getD p.medicalHistory
    criticalCondition := u.criticalCondition.getD p.criticalCondition }

/-- The `runValidators: true` check on a patient update: supplied required
paths must still validate. -/
def patientUpdateValid (u : PatientUpdate) : Bool :=
  (match u.name with
   | some n => n != ""
   | none => true) &&
  (match u.gender with
   | some g => g != ""
   | none => true)

/-- Controller `updatePatient`: merge the payload into the patient matched
by id. Mongoose runs the `runValidators: true` update validators on the
payload client-side, before the query executes, so an invalid payload
answers 400 even when the id matches nothing; with a valid payload, an
unmatched id answers 404. -/
def updatePatient (db : DB) (pid : Nat) (u : PatientUpdate) :
    Resp Patient × DB :=
  if patientUpdateValid u then
    match findPatient db pid with
    | none => (Resp.notFound "Patient not found", db)
    | some p =>
      (Resp.ok (applyPatientUpdate u p),
       { db with
         patients := db.patients.map fun x =>
           if x.id == pid then applyPatientUpdate u x else x })
  else
    (Resp.badRequest "Patient validation failed", db)

/-- Controller `deletePatient`: remove the patient matched by id, 404 when absent;
the test collection is never touched, so the deleted patient's tests
remain stored. -/
def deletePatient (db : DB) (pid : Nat) : Resp String × DB :=
  match findPatient db pid with
  | none => (Resp.notFound "Patient not found", db)
  | some _ =>
    (Resp.ok "Patient deleted successfully",
     { db with patients := db.patients.filter fun p => p.id != pid })

/-! ## The operations as one step relation -/

/-- One API request, with its data: the union of every controller
operation the routes expose. -/
inductive Op
  | addPatient (b : PatientBody)
  | getAllPatients
  | getPatientById (pid : Nat)
  | getCriticalPatients
  | getPatientHistory (pid : Nat)
  | updatePatient (pid : Nat) (u : PatientUpdate)
  | deletePatient (pid : Nat)
  | addTest (pid : Nat) (b : AddTestBody)
  | getTestsForPatient (pid : Nat)
  | getTestById (tid : Nat)
  | updateTest (tid : Nat) (u : TestUpdate)
  | deleteTest (tid : Nat)
deriving DecidableEq

/-- The database state after handling one request. -/
def applyOp (db : DB) : Op → DB
  | .addPatient b => (addPatient db b).2
  | .getAllPatients => (getAllPatients db).2
  | .getPatientById pid => (getPatientById db pid).2
  | .getCriticalPatients => (getCriticalPatients db).2
  | .getPatientHistory pid => (getPatientHistory db pid).2
  | .updatePatient pid u => (updatePatient db pid u).2
  | .deletePatient pid => (deletePatient db pid).2
  | .addTest pid b => (addTestForPatient db pid b).2
  | .getTestsForPatient pid => (getTestsForPatient db pid).2
  | .getTestById tid => (getTestById db tid).2
  | .updateTest tid u => (updateTest db tid u).2
  | .deleteTest tid => (deleteTest db tid).2

/-- Every test document in the store carries one of the four `enum`
types. -/
def TestsWellTyped (db : DB) : Prop :=
  ∀ t ∈ db.tests, t.type ∈ validTestTypes

instance (db : DB) : Decidable (TestsWellTyped db) :=
  List.decidableBAll _ db.tests

/-! ## Concrete fixtures

Small concrete database states used to instantiate the theorems below on
explicit inputs. -/

/-- A patient on file, not in critical condition. -/
def patientW : Patient :=
  { id := 0, name := "John Doe", age := 30, gender := "male"
    address := none, phoneNumber := none, medicalHistory := []
    criticalCondition := false }

/-- A database holding `patientW` and no tests yet. -/
def dbW : DB := { patients := [patientW], tests := [], nextId := 1, clock := 10 }

/-- A test of a type outside the schema `enum`. -/
def testX : Test := { id := 5, patientId := 0, date := 3, type := "X-Ray", value := "2" }

/-- A database holding `patientW` and the off-`enum` test `testX`. -/
def dbX : DB := { patients := [patientW], tests := [testX], nextId := 6, clock := 10 }

/-- A test whose numeric-type value is not a numeral. -/
def testN : Test :=
  { id := 7, patientId := 0, date := 3, type := "Respiratory Rate", value := "abc" }

/-- A database holding `patientW` and the non-numeric-valued test `testN`. -/
def dbN : DB := { patients := [patientW], tests := [testN], nextId := 8, clock := 10 }

/-! ## Sanity checks on the classification -/

example : criticalOf "Blood Pressure" "200/70" = true := by decide
example : criticalOf "Blood Pressure" "110/70" = false := by decide
example : criticalOf "Blood Pressure" "100/50" = true := by decide
example : criticalOf "Respiratory Rate" "31" = true := by decide
example : criticalOf "Respiratory Rate" "20" = false := by decide
example : criticalOf "Respiratory Rate" "abc" = false := by decide
example : criticalOf "Blood Oxygen Level" "89" = true := by decide
example : criticalOf "Blood Oxygen Level" "95" = false := by decide
example : criticalOf "Heartbeat Rate" "101" = true := by decide
example : criticalOf "Heartbeat Rate" "72" = false := by decide
example : criticalOf "X-Ray" "999" = false := by decide
example : jsNumber "abc".toList = none := by decide
example : jsNumber "12.5".toList = some ⟨125, 1⟩ := by decide
example : criticalOf "Respiratory Rate" "11.5" = true := by decide

/-! ## Bridging lemmas for the exact comparisons -/

/-- The exact integer comparison `Dec.gtInt` agrees with the rational
order on the denoted values. -/
theorem Dec.gtInt_iff (d : Dec) (c : Int) :
    d.gtInt c = true ↔ (c : ℚ) < d.toRat := by
  unfold Dec.gtInt Dec.toRat
  rw [decide_eq_true_eq, lt_div_iff₀ (by positivity)]
  constructor <;> intro h <;> exact_mod_cast h

/-- The exact integer comparison `Dec.ltInt` agrees with the rational
order on the denoted values. -/
theorem Dec.ltInt_iff (d : Dec) (c : Int) :
    d.ltInt c = true ↔ d.toRat < (c : ℚ) := by
  unfold Dec.ltInt Dec.toRat
  rw [decide_eq_true_eq, div_lt_iff₀ (by positivity)]
  constructor <;> intro h <;> exact_mod_cast h

/-- Unfolding `jsGt` into an existence statement about the denoted
rational value. -/
theorem jsGt_eq_true_iff (x : Option Dec) (c : Int) :
    jsGt x c = true ↔ ∃ d, x = some d ∧ (c : ℚ) < d.toRat := by
  cases x with
  | none => simp [jsGt]
  | some d => simp [jsGt, Dec.gtInt_iff]

/-- Unfolding `jsLt` into an existence statement about the denoted
rational value. -/
theorem jsLt_eq_true_iff (x : Option Dec) (c : Int) :
    jsLt x c = true ↔ ∃ d, x = some d ∧ d.toRat < (c : ℚ) := by
  cases x with
  | none => simp [jsLt]
  | some d => simp [jsLt, Dec.ltInt_iff]

/-! ## Branch reduction of the classification -/

/-- Reduction of the `switch` at the `Blood Pressure` case. -/
theorem criticalOf_bp (v : String) :
    criticalOf "Blood Pressure" v = bloodPressureCritical v := rfl

/-- Reduction of the `switch` at the `Respiratory Rate` case. -/
theorem criticalOf_rr (v : String) :
    criticalOf "Respiratory Rate" v =
      (jsGt (jsNumber v.toList) 30 || jsLt (jsNumber v.toList) 12) := rfl

/-- Reduction of the `switch` at the `Blood Oxygen Level` case. -/
theorem criticalOf_ox (v : String) :
    criticalOf "Blood Oxygen Level" v = jsLt (jsNumber v.toList) 90 := rfl

/-- Reduction of the `switch` at the `Heartbeat Rate` case. -/
theorem criticalOf_hr (v : String) :
    criticalOf "Heartbeat Rate" v =
      (jsGt (jsNumber v.toList) 100 || jsLt (jsNumber v.toList) 60) := rfl

/-- C1. The critical-condition classification is the pure function
`criticalOf` of test type and test value, and on each of the four test
types it holds exactly on the spec's clinical thresholds: a Blood
Pressure reading (parsed as "systolic/diastolic") is critical iff
systolic > 180 or systolic < 90 or diastolic > 120 or diastolic < 60; a
Respiratory Rate reading iff its numeric value is > 30 or < 12; a Blood
Oxygen Level reading iff its numeric value is < 90; a Heartbeat Rate
reading iff its numeric value is > 100 or < 60. -/
theorem c1_critical_classification_thresholds (v : String) :
    (criticalOf "Blood Pressure" v = true ↔
      (∃ d, jsIdx ((jsSplit '/' v.toList).map jsNumber) 0 = some d ∧
        (180 < d.toRat ∨ d.toRat < 90)) ∨
      (∃ d, jsIdx ((jsSplit '/' v.toList).map jsNumber) 1 = some d ∧
        (120 < d.toRat ∨ d.toRat < 60))) ∧
    (criticalOf "Respiratory Rate" v = true ↔
      ∃ d, jsNumber v.toList = some d ∧ (30 < d.toRat ∨ d.toRat < 12)) ∧
    (criticalOf "Blood Oxygen Level" v = true ↔
      ∃ d, jsNumber v.toList = some d ∧ d.toRat < 90) ∧
    (criticalOf "Heartbeat Rate" v = true ↔
      ∃ d, jsNumber v.toList = some d ∧ (100 < d.toRat ∨ d.toRat < 60)) := by
  refine ⟨?_, ?_, ?_, ?_⟩
  · rw [criticalOf_bp]
    unfold bloodPressureCritical
    simp only [Bool.or_eq_true, jsGt_eq_true_iff, jsLt_eq_true_iff]
    push_cast
    constructor
    · rintro (((⟨d, hd, h⟩ | ⟨d, hd, h⟩) | ⟨d, hd, h⟩) | ⟨d, hd, h⟩)
      · exact Or.inl ⟨d, hd, Or.inl h⟩
      · exact Or.inl ⟨d, hd, Or.inr h⟩
      · exact Or.inr ⟨d, hd, Or.inl h⟩
      · exact Or.inr ⟨d, hd, Or.inr h⟩
    · rintro (⟨d, hd, h | h⟩ | ⟨d, hd, h | h⟩)
      · exact Or.inl (Or.inl (Or.inl ⟨d, hd, h⟩))
      · exact Or.inl (Or.inl (Or.inr ⟨d, hd, h⟩))
      · exact Or.inl (Or.inr ⟨d, hd, h⟩)
      · exact Or.inr ⟨d, hd, h⟩
  · rw [criticalOf_rr]
    simp only [Bool.or_eq_true, jsGt_eq_true_iff, jsLt_eq_true_iff]
    push_cast
    constructor
    · rintro (⟨d, hd, h⟩ | ⟨d, hd, h⟩)
      · exact ⟨d, hd, Or.inl h⟩
      · exact ⟨d, hd, Or.inr h⟩
    · rintro ⟨d, hd, h | h⟩
      · exact Or.inl ⟨d, hd, h⟩
      · exact Or.inr ⟨d, hd, h⟩
  · rw [criticalOf_ox]
    simp only [jsLt_eq_true_iff]
    push_cast
    rfl
  · rw [criticalOf_hr]
    simp only [Bool.or_eq_true, jsGt_eq_true_iff, jsLt_eq_true_iff]
    push_cast
    constructor
    · rintro (⟨d, hd, h⟩ | ⟨d, hd, h⟩)
      · exact ⟨d, hd, Or.inl h⟩
      · exact ⟨d, hd, Or.inr h⟩
    · rintro ⟨d, hd, h | h⟩
      · exact Or.inl ⟨d, hd, h⟩
      · exact Or.inr ⟨d, hd, h⟩

/-! ## Non-numeric values -/

/-- Indexing a list all of whose entries are `none` yields `none`. -/
theorem jsIdx_eq_none_of_all_none (l : List (Option Dec)) (i : Nat)
    (h : ∀ x ∈ l, x = none) : jsIdx l i = none := by
  unfold jsIdx
  cases hx : l.get? i with
  | none => rfl
  | some x =>
    have hmem := List.get?_mem hx
    have := h x hmem
    subst this
    rfl

/-- C4 counterexample. On a non-numeric value string the classification
does not fail: JavaScript `Number()` yields `NaN` (here `none`), not an
exception, every threshold comparison on `NaN` is `false`, and the
recomputation completes normally, leaving the patient non-critical. In
particular, with the non-numeric Respiratory Rate test `testN` as the
most recent test, `updatePatientCriticalCondition` returns a successor
state (the flag set to `false`) instead of propagating any error. -/
theorem c4_counterexample :
    jsNumber "abc".toList = none ∧
    criticalOf "Blood Pressure" "abc" = false ∧
    criticalOf "Respiratory Rate" "abc" = false ∧
    criticalOf "Blood Oxygen Level" "abc" = false ∧
    criticalOf "Heartbeat Rate" "abc" = false ∧
    mostRecentTestFor dbN 0 = some testN ∧
    updatePatientCriticalCondition dbN 0 = dbN := by decide

/-- C4 amended. For every test type (numeric-typed or not) and every
value string none of whose slash-components is numeric, the
critical-condition recomputation does not raise: the unguarded
`Number()` parse yields `NaN`, every threshold comparison on `NaN` (or on
the `undefined` diastolic component) is `false`, and the classification
totally evaluates to `false` (non-critical). -/
theorem c4_nonnumeric_value_noncritical (ty v : String)
    (hv : jsNumber v.toList = none)
    (hsplit : ∀ cs ∈ jsSplit '/' v.toList, jsNumber cs = none) :
    criticalOf ty v = false := by
  have hall : ∀ x ∈ (jsSplit '/' v.toList).map jsNumber, x = none := by
    intro x hx
    rcases List.mem_map.1 hx with ⟨cs, hcs, rfl⟩
    exact hsplit cs hcs
  unfold criticalOf
  split_ifs
  · unfold bloodPressureCritical
    simp only [jsIdx_eq_none_of_all_none _ 0 hall, jsIdx_eq_none_of_all_none _ 1 hall]
    rfl
  · rw [hv]; rfl
  · rw [hv]; rfl
  · rw [hv]; rfl
  · rfl

/-- C4 witness: the amended theorem applied at the concrete non-numeric
input "abc" for each of the four numeric-capable test types. -/
theorem c4_nonnumeric_value_noncritical_witness :
    (jsNumber "abc".toList = none ∧
      ∀ cs ∈ jsSplit '/' "abc".toList, jsNumber cs = none) ∧
    criticalOf "Respiratory Rate" "abc" = false ∧
    criticalOf "Blood Pressure" "abc" = false ∧
    criticalOf "Blood Oxygen Level" "abc" = false ∧
    criticalOf "Heartbeat Rate" "abc" = false :=
  ⟨⟨by decide, by decide⟩,
   c4_nonnumeric_value_noncritical "Respiratory Rate" "abc" (by decide) (by decide),
   c4_nonnumeric_value_noncritical "Blood Pressure" "abc" (by decide) (by decide),
   c4_nonnumeric_value_noncritical "Blood Oxygen Level" "abc" (by decide) (by decide),
   c4_nonnumeric_value_noncritical "Heartbeat Rate" "abc" (by decide) (by decide)⟩

/-! ## Helper lemmas on the store operations -/

/-- Updating by id through a map touches exactly the documents matching
the id, so an id-keyed lookup commutes with it. -/
theorem find?_map_ite (l : List Patient) (pid : Nat) (g : Patient → Patient)
    (hg : ∀ p, (g p).id = p.id) :
    ((l.map fun p => if p.id == pid then g p else p).find? fun p => p.id == pid) =
      ((l.find? fun p => p.id == pid).map g) := by
  induction l with
  | nil => rfl
  | cons a l ih =>
    simp only [List.map_cons]
    by_cases h : (a.id == pid) = true
    · rw [if_pos h]
      rw [List.find?_cons_of_pos (p := fun q : Patient => q.id == pid) _ (by show ((g a).id == pid) = true; rw [hg a]; exact h)]
      rw [List.find?_cons_of_pos (p := fun q : Patient => q.id == pid) _ h]
      rfl
    · rw [if_neg h]
      rw [List.find?_cons_of_neg (p := fun q : Patient => q.id == pid) _ h]
      rw [List.find?_cons_of_neg (p := fun q : Patient => q.id == pid) _ h]
      exact ih

/-- The critical-flag recomputation never touches the test collection. -/
theorem updatePCC_tests (db : DB) (pid : Nat) :
    (updatePatientCriticalCondition db pid).tests = db.tests := by
  unfold updatePatientCriticalCondition
  cases mostRecentTestFor db pid <;> rfl

/-- The critical-flag recomputation never touches the id generator or the
clock. -/
theorem updatePCC_nextId_clock (db : DB) (pid : Nat) :
    (updatePatientCriticalCondition db pid).nextId = db.nextId ∧
      (updatePatientCriticalCondition db pid).clock = db.clock := by
  unfold updatePatientCriticalCondition
  cases mostRecentTestFor db pid <;> exact ⟨rfl, rfl⟩

/-- Shape of the recomputation when a most recent test exists. -/
theorem updatePCC_of_mostRecent (db : DB) (pid : Nat) (t : Test)
    (ht : mostRecentTestFor db pid = some t) :
    updatePatientCriticalCondition db pid =
      { db with
        patients := db.patients.map fun p =>
          if p.id == pid then
            { p with criticalCondition := criticalOf t.type t.value }
          else p } := by
  unfold updatePatientCriticalCondition
  rw [ht]

/-- A strictly fresher element appended to a list is the head of the
date-descending sort. -/
theorem head?_sortByDateDesc_of_fresh (l : List Test) (t : Test)
    (h : ∀ x ∈ l, x.date < t.date) :
    (sortByDateDesc (l ++ [t])).head? = some t := by
  have hperm : (sortByDateDesc (l ++ [t])).Perm (l ++ [t]) :=
    List.perm_insertionSort _ _
  have hsorted : List.Sorted dateDesc (sortByDateDesc (l ++ [t])) :=
    List.sorted_insertionSort _ _
  have ht : t ∈ sortByDateDesc (l ++ [t]) := hperm.mem_iff.2 (by simp)
  cases hs : sortByDateDesc (l ++ [t]) with
  | nil => rw [hs] at ht; simp at ht
  | cons b rest =>
    rw [hs] at ht hsorted hperm
    have hb : b ∈ l ++ [t] := hperm.mem_iff.1 (List.mem_cons_self b rest)
    have hbt : b = t := by
      rcases List.mem_append.1 hb with hbl | hbt
      · exfalso
        have hblt : b.date < t.date := h b hbl
        rcases List.mem_cons.1 ht with rfl | htrest
        · exact lt_irrefl _ hblt
        · have : dateDesc b t := (List.sorted_cons.1 hsorted).1 t htrest
          exact absurd hblt (not_lt.2 this)
      · simpa using hbt
    rw [hbt]
    rfl

/-- C2. Adding a test for a patient persists exactly one new test record
(built from the path id, the body's type and value, and the current
time), after which the just-inserted test is the patient's most recent
test by date descending, and the operation synchronously sets the owning
patient's criticalCondition flag to the classification of that most
recent test. -/
theorem c2_addTest_persists_and_recomputes (db : DB) (pid : Nat)
    (b : AddTestBody) (p : Patient)
    (hp : findPatient db pid = some p)
    (hv : testSchemaValid (mkNewTest db pid b) = true)
    (hfresh : ∀ x ∈ db.tests, x.date < db.clock) :
    (addTestForPatient db pid b).1 = Resp.created (mkNewTest db pid b) ∧
    (addTestForPatient db pid b).2.tests = db.tests ++ [mkNewTest db pid b] ∧
    mostRecentTestFor (addTestForPatient db pid b).2 pid =
      some (mkNewTest db pid b) ∧
    findPatient (addTestForPatient db pid b).2 pid =
      some { p with criticalCondition := criticalOf b.type b.value } := by
  have hadd : addTestForPatient db pid b =
      (Resp.created (mkNewTest db pid b),
       updatePatientCriticalCondition
         { db with
           tests := db.tests ++ [mkNewTest db pid b]
           nextId := db.nextId + 1, clock := db.clock + 1 } pid) := by
    unfold addTestForPatient
    rw [if_pos hv]
  set t := mkNewTest db pid b with hT
  set db1 : DB :=
    { db with tests := db.tests ++ [t], nextId := db.nextId + 1, clock := db.clock + 1 }
    with hdb1
  have hfilter : db1.tests.filter (fun x => x.patientId == pid) =
      db.tests.filter (fun x => x.patientId == pid) ++ [t] := by
    show (db.tests ++ [t]).filter (fun x => x.patientId == pid) = _
    rw [List.filter_append]
    simp [hT, mkNewTest]
  have hrecent : mostRecentTestFor db1 pid = some t := by
    unfold mostRecentTestFor
    rw [hfilter]
    refine head?_sortByDateDesc_of_fresh _ _ ?_
    intro x hx
    have hxmem : x ∈ db.tests := List.mem_of_mem_filter hx
    have : x.date < db.clock := hfresh x hxmem
    simpa [hT, mkNewTest] using this
  refine ⟨by rw [hadd], ?_, ?_, ?_⟩
  · rw [hadd]
    show (updatePatientCriticalCondition db1 pid).tests = _
    rw [updatePCC_tests]
  · rw [hadd]
    show mostRecentTestFor (updatePatientCriticalCondition db1 pid) pid = some t
    unfold mostRecentTestFor
    rw [updatePCC_tests]
    have := hrecent
    unfold mostRecentTestFor at this
    exact this
  · rw [hadd]
    show findPatient (updatePatientCriticalCondition db1 pid) pid = _
    rw [updatePCC_of_mostRecent db1 pid t hrecent]
    show (db1.patients.map fun q =>
        if q.id == pid then
          { q with criticalCondition := criticalOf t.type t.value }
        else q).find? (fun q => q.id == pid) = _
    rw [find?_map_ite db1.patients pid
      (fun q => { q with criticalCondition := criticalOf t.type t.value })
      (fun _ => rfl)]
    have hp1 : db1.patients.find? (fun q => q.id == pid) = some p := hp
    rw [hp1]
    rfl

/-- C2 witness: on a concrete one-patient store, inserting a Blood
Pressure test "200/70" sets the patient's flag to true, and a subsequent
"110/70" test (the new most recent) sets it back to false. -/
theorem c2_addTest_witness :
    (findPatient dbW 0 = some patientW ∧
      testSchemaValid (mkNewTest dbW 0 { type := "Blood Pressure", value := "200/70" }) = true ∧
      (∀ x ∈ dbW.tests, x.date < dbW.clock)) ∧
    findPatient (addTestForPatient dbW 0 { type := "Blood Pressure", value := "200/70" }).2 0 =
      some { patientW with criticalCondition := true } ∧
    findPatient
        (addTestForPatient
          (addTestForPatient dbW 0 { type := "Blood Pressure", value := "200/70" }).2 0
          { type := "Blood Pressure", value := "110/70" }).2 0 =
      some { patientW with criticalCondition := false } := by
  refine ⟨⟨by decide, by decide, by decide⟩, ?_, ?_⟩
  · have h := c2_addTest_persists_and_recomputes dbW 0
      { type := "Blood Pressure", value := "200/70" } patientW
      (by decide) (by decide) (by decide)
    rw [h.2.2.2]
    decide
  · have h := c2_addTest_persists_and_recomputes
      (addTestForPatient dbW 0 { type := "Blood Pressure", value := "200/70" }).2 0
      { type := "Blood Pressure", value := "110/70" }
      { patientW with criticalCondition := true }
      (by decide) (by decide) (by decide)
    rw [h.2.2.2]
    decide

/-- Filtering away an id commutes with an id-keyed guarded map, because
the update function preserves ids. -/
theorem filter_ne_of_map_ite (l : List Test) (tid : Nat) (g : Test → Test)
    (hg : ∀ t, (g t).id = t.id) :
    ((l.map fun x => if x.id == tid then g x else x).filter fun x => x.id != tid) =
      l.filter fun x => x.id != tid := by
  induction l with
  | nil => rfl
  | cons a l ih =>
    simp only [List.map_cons]
    by_cases h : (a.id == tid) = true
    · have heq : a.id = tid := by simpa using h
      rw [if_pos h]
      rw [List.filter_cons, List.filter_cons]
      rw [if_neg (by simp [hg a, heq]), if_neg (by simp [heq])]
      exact ih
    · have hne : a.id ≠ tid := by simpa using h
      rw [if_neg h]
      rw [List.filter_cons, List.filter_cons]
      rw [if_pos (by simp [hne]), if_pos (by simp [hne])]
      rw [ih]

/-- C3. The update-test and delete-test operations leave the patient
collection (hence every patient's criticalCondition flag) unchanged, and
touch no test record other than the one matched by the id: neither
operation triggers critical-flag recomputation. -/
theorem c3_update_delete_test_frame (db : DB) (tid : Nat) (u : TestUpdate) :
    (updateTest db tid u).2.patients = db.patients ∧
    (deleteTest db tid).2.patients = db.patients ∧
    ((updateTest db tid u).2.tests.filter fun x => x.id != tid) =
      (db.tests.filter fun x => x.id != tid) ∧
    ((deleteTest db tid).2.tests.filter fun x => x.id != tid) =
      (db.tests.filter fun x => x.id != tid) ∧
    (∀ pid, findPatient (updateTest db tid u).2 pid = findPatient db pid) ∧
    (∀ pid, findPatient (deleteTest db tid).2 pid = findPatient db pid) := by
  refine ⟨?_, ?_, ?_, ?_, ?_, ?_⟩
  · unfold updateTest
    by_cases hv : testUpdateValid u = true
    · rw [if_pos hv]
      cases findTest db tid <;> rfl
    · rw [if_neg hv]
  · unfold deleteTest
    cases findTest db tid <;> rfl
  · unfold updateTest
    by_cases hv : testUpdateValid u = true
    · rw [if_pos hv]
      cases findTest db tid with
      | none => rfl
      | some t =>
        exact filter_ne_of_map_ite db.tests tid (applyTestUpdate u) (fun _ => rfl)
    · rw [if_neg hv]
  · unfold deleteTest
    cases findTest db tid with
    | none => rfl
    | some t =>
      show ((db.tests.filter fun x => x.id != tid).filter fun x => x.id != tid) = _
      rw [List.filter_filter]
      congr 1
      funext x
      exact Bool.and_self _
  · intro pid
    unfold updateTest
    by_cases hv : testUpdateValid u = true
    · rw [if_pos hv]
      cases findTest db tid <;> rfl
    · rw [if_neg hv]
  · intro pid
    unfold deleteTest
    cases findTest db tid <;> rfl

/-- C5. A test whose type is outside the four-value enumeration matches
no `case` of the `switch`, so the classification yields `false`, and the
recomputation sets the owning patient's flag to `false` when such a test
is the most recent one. -/
theorem c5_unknown_type_noncritical :
    (∀ ty v, ty ∉ validTestTypes → criticalOf ty v = false) ∧
    (∀ (db : DB) (pid : Nat) (latest : Test) (p : Patient),
      mostRecentTestFor db pid = some latest →
      latest.type ∉ validTestTypes →
      findPatient db pid = some p →
      findPatient (updatePatientCriticalCondition db pid) pid =
        some { p with criticalCondition := false }) := by
  have part1 : ∀ ty v, ty ∉ validTestTypes → criticalOf ty v = false := by
    intro ty v h
    simp only [validTestTypes, List.mem_cons, List.not_mem_nil, or_false] at h
    push_neg at h
    obtain ⟨h1, h2, h3, h4⟩ := h
    unfold criticalOf
    rw [if_neg h1, if_neg h2, if_neg h3, if_neg h4]
  refine ⟨part1, ?_⟩
  intro db pid latest p hm hty hp
  rw [updatePCC_of_mostRecent db pid latest hm]
  show (db.patients.map fun q =>
      if q.id == pid then
        { q with criticalCondition := criticalOf latest.type latest.value }
      else q).find? (fun q => q.id == pid) = _
  rw [find?_map_ite db.patients pid
    (fun q => { q with criticalCondition := criticalOf latest.type latest.value })
    (fun _ => rfl)]
  rw [show db.patients.find? (fun q => q.id == pid) = some p from hp]
  rw [Option.map_some']
  rw [part1 latest.type latest.value hty]

/-- C5 witness: a concrete store whose most recent test has the
off-enumeration type "X-Ray"; the classification is false and the
recomputation writes a false flag. -/
theorem c5_unknown_type_witness :
    ("X-Ray" ∉ validTestTypes ∧ mostRecentTestFor dbX 0 = some testX ∧
      findPatient dbX 0 = some patientW) ∧
    criticalOf "X-Ray" "999" = false ∧
    findPatient (updatePatientCriticalCondition dbX 0) 0 =
      some { patientW with criticalCondition := false } :=
  ⟨⟨by decide, by decide, by decide⟩,
   c5_unknown_type_noncritical.1 "X-Ray" "999" (by decide),
   c5_unknown_type_noncritical.2 dbX 0 testX patientW (by decide) (by decide) (by decide)⟩

/-- C6. Listing a patient's tests returns exactly that patient's tests
(a permutation of the projections of the store's tests with that
patientId), ordered by date descending, each record projected under the
controller's `select` (of the requested fields, `type`, `value` and
`date` exist in the schema; `_id` is kept by the inclusive projection),
and the database state is untouched. -/
theorem c6_list_tests_sorted_projection (db : DB) (pid : Nat) :
    (getTestsForPatient db pid).2 = db ∧
    (getTestsForPatient db pid).1 =
      Resp.ok ((sortByDateDesc (db.tests.filter fun t => t.patientId == pid)).map
        projectTest) ∧
    ((sortByDateDesc (db.tests.filter fun t => t.patientId == pid)).map
        projectTest).Perm
      ((db.tests.filter fun t => t.patientId == pid).map projectTest) ∧
    List.Pairwise (fun a b : TestView => b.date ≤ a.date)
      ((sortByDateDesc (db.tests.filter fun t => t.patientId == pid)).map
        projectTest) := by
  refine ⟨rfl, rfl, ?_, ?_⟩
  · exact (List.perm_insertionSort _ _).map projectTest
  · have hs : List.Sorted dateDesc
        (sortByDateDesc (db.tests.filter fun t => t.patientId == pid)) :=
      List.sorted_insertionSort _ _
    exact List.Pairwise.map projectTest (fun a b hab => hab) hs

/-- C7 counterexample. The claim's update conjunct fails for a
validator-failing payload: Mongoose runs the `runValidators: true`
update validators on the payload before the query executes, so on the
absent id 99 the payload `{name: ""}` answers 400, not 404. -/
theorem c7_update_validation_counterexample :
    findPatient dbW 99 = none ∧
    patientUpdateValid { name := some "" } = false ∧
    (updatePatient dbW 99 { name := some "" }).1.status = 400 ∧
    (updatePatient dbW 99 { name := some "" }).1.status ≠ 404 := by decide

/-- C7 amended. On a patient id absent from the store, get-by-id and
delete answer 404, and update answers 404 for every validator-passing
payload (a validator-failing payload answers 400 before the query runs);
in all these cases the whole database state is unchanged. On a present
id, get-by-id answers 200 with that patient's record, also leaving the
state unchanged. -/
theorem c7_patient_not_found_amended (db : DB) (pid : Nat) :
    (findPatient db pid = none →
      (getPatientById db pid).1.status = 404 ∧ (getPatientById db pid).2 = db ∧
      (∀ u, patientUpdateValid u = true →
        (updatePatient db pid u).1.status = 404 ∧
        (updatePatient db pid u).2 = db) ∧
      (∀ u, patientUpdateValid u = false → (updatePatient db pid u).2 = db) ∧
      (deletePatient db pid).1.status = 404 ∧ (deletePatient db pid).2 = db) ∧
    (∀ p, findPatient db pid = some p →
      (getPatientById db pid).1 = Resp.ok p ∧ (getPatientById db pid).2 = db) := by
  constructor
  · intro h
    refine ⟨?_, ?_, ?_, ?_, ?_, ?_⟩
    · unfold getPatientById
      rw [h]
      rfl
    · unfold getPatientById
      rw [h]
    · intro u hu
      unfold updatePatient
      rw [if_pos hu, h]
      exact ⟨rfl, rfl⟩
    · intro u hu
      unfold updatePatient
      rw [if_neg (by rw [hu]; exact Bool.false_ne_true)]
    · unfold deletePatient
      rw [h]
      rfl
    · unfold deletePatient
      rw [h]
  · intro p h
    unfold getPatientById
    rw [h]
    exact ⟨rfl, rfl⟩

/-- C7 witness: on the concrete store `dbW`, id 99 is absent (404 on
get, valid-payload update, and delete; state unchanged) and id 0 is
present (its record is returned). -/
theorem c7_patient_not_found_amended_witness :
    (findPatient dbW 99 = none ∧ patientUpdateValid {} = true) ∧
    ((getPatientById dbW 99).1.status = 404 ∧ (getPatientById dbW 99).2 = dbW ∧
      (updatePatient dbW 99 {}).1.status = 404 ∧
      (updatePatient dbW 99 {}).2 = dbW ∧
      (deletePatient dbW 99).1.status = 404 ∧ (deletePatient dbW 99).2 = dbW) ∧
    (findPatient dbW 0 = some patientW ∧
      (getPatientById dbW 0).1 = Resp.ok patientW) := by
  have h1 := (c7_patient_not_found_amended dbW 99).1 (by decide)
  have h2 := (c7_patient_not_found_amended dbW 0).2 patientW (by decide)
  exact ⟨⟨by decide, by decide⟩,
    ⟨h1.1, h1.2.1, (h1.2.2.1 {} (by decide)).1, (h1.2.2.1 {} (by decide)).2,
      h1.2.2.2.2.1, h1.2.2.2.2.2⟩, by decide, h2.1⟩

/-- C8. Deleting a present patient removes exactly the patient record
with that id, answers 200, and leaves the test collection entirely
unchanged — in particular every test referencing the deleted patient
remains stored as an orphan. -/
theorem c8_delete_patient_keeps_tests (db : DB) (pid : Nat) (p : Patient)
    (hp : findPatient db pid = some p) :
    (deletePatient db pid).1 = Resp.ok "Patient deleted successfully" ∧
    (deletePatient db pid).2.patients = db.patients.filter (fun q => q.id != pid) ∧
    (deletePatient db pid).2.tests = db.tests ∧
    (∀ t ∈ db.tests, t.patientId = pid → t ∈ (deletePatient db pid).2.tests) := by
  unfold deletePatient
  rw [hp]
  exact ⟨rfl, rfl, rfl, fun t ht _ => ht⟩

/-- C8 witness: deleting patient 0 from the concrete store `dbX` empties
the patient collection but keeps the test referencing patient 0. -/
theorem c8_delete_patient_witness :
    findPatient dbX 0 = some patientW ∧
    (deletePatient dbX 0).2.patients = [] ∧
    (deletePatient dbX 0).2.tests = [testX] ∧
    testX.patientId = 0 ∧
    findPatient (deletePatient dbX 0).2 0 = none := by
  have h := c8_delete_patient_keeps_tests dbX 0 patientW (by decide)
  refine ⟨by decide, ?_, ?_, by decide, by decide⟩
  · rw [h.2.1]
    decide
  · rw [h.2.2.1]
    decide

/-- Read-only operations return the database unchanged. -/
theorem read_ops_state (db : DB) :
    (getAllPatients db).2 = db ∧ (∀ pid, (getPatientById db pid).2 = db) ∧
    (getCriticalPatients db).2 = db ∧ (∀ pid, (getPatientHistory db pid).2 = db) ∧
    (∀ pid, (getTestsForPatient db pid).2 = db) ∧
    (∀ tid, (getTestById db tid).2 = db) := by
  refine ⟨rfl, ?_, rfl, ?_, fun _ => rfl, ?_⟩
  · intro pid
    unfold getPatientById
    cases findPatient db pid <;> rfl
  · intro pid
    unfold getPatientHistory
    cases findPatient db pid <;> rfl
  · intro tid
    unfold getTestById
    cases findTest db tid <;> rfl

/-- Patient-collection operations never touch the test collection. -/
theorem patient_ops_tests (db : DB) :
    (∀ b, (addPatient db b).2.tests = db.tests) ∧
    (∀ pid u, (updatePatient db pid u).2.tests = db.tests) ∧
    (∀ pid, (deletePatient db pid).2.tests = db.tests) := by
  refine ⟨?_, ?_, ?_⟩
  · intro b
    unfold addPatient
    by_cases hv : patientBodyValid b = true
    · rw [if_pos hv]
    · rw [if_neg hv]
  · intro pid u
    unfold updatePatient
    by_cases hv : patientUpdateValid u = true
    · rw [if_pos hv]
      cases findPatient db pid <;> rfl
    · rw [if_neg hv]
  · intro pid
    unfold deletePatient
    cases findPatient db pid <;> rfl

/-- Shape of the test collection after a successful test insertion. -/
theorem addTest_tests_of_valid (db : DB) (pid : Nat) (b : AddTestBody)
    (hv : testSchemaValid (mkNewTest db pid b) = true) :
    (addTestForPatient db pid b).2.tests = db.tests ++ [mkNewTest db pid b] := by
  unfold addTestForPatient
  rw [if_pos hv]
  exact updatePCC_tests _ _

/-- An invalid test insertion leaves the database unchanged. -/
theorem addTest_state_of_invalid (db : DB) (pid : Nat) (b : AddTestBody)
    (hv : ¬testSchemaValid (mkNewTest db pid b) = true) :
    (addTestForPatient db pid b).2 = db := by
  unfold addTestForPatient
  rw [if_neg hv]

/-- C9. Every operation of the API preserves the invariant that each
stored test's type is one of the four schema `enum` values: test creation
validates the schema enum, test update re-validates a supplied type, and
no other operation writes to the test collection. -/
theorem c9_test_type_enum_invariant (db : DB) (op : Op)
    (h : TestsWellTyped db) : TestsWellTyped (applyOp db op) := by
  cases op with
  | addPatient b =>
    intro t ht
    rw [show applyOp db (.addPatient b) = (addPatient db b).2 from rfl,
      (patient_ops_tests db).1 b] at ht
    exact h t ht
  | getAllPatients =>
    intro t ht
    rw [show applyOp db .getAllPatients = (getAllPatients db).2 from rfl,
      (read_ops_state db).1] at ht
    exact h t ht
  | getPatientById pid =>
    intro t ht
    rw [show applyOp db (.getPatientById pid) = (getPatientById db pid).2 from rfl,
      (read_ops_state db).2.1 pid] at ht
    exact h t ht
  | getCriticalPatients =>
    intro t ht
    rw [show applyOp db .getCriticalPatients = (getCriticalPatients db).2 from rfl,
      (read_ops_state db).2.2.1] at ht
    exact h t ht
  | getPatientHistory pid =>
    intro t ht
    rw [show applyOp db (.getPatientHistory pid) = (getPatientHistory db pid).2 from rfl,
      (read_ops_state db).2.2.2.1 pid] at ht
    exact h t ht
  | updatePatient pid u =>
    intro t ht
    rw [show applyOp db (.updatePatient pid u) = (updatePatient db pid u).2 from rfl,
      (patient_ops_tests db).2.1 pid u] at ht
    exact h t ht
  | deletePatient pid =>
    intro t ht
    rw [show applyOp db (.deletePatient pid) = (deletePatient db pid).2 from rfl,
      (patient_ops_tests db).2.2 pid] at ht
    exact h t ht
  | addTest pid b =>
    intro t ht
    rw [show applyOp db (.addTest pid b) = (addTestForPatient db pid b).2 from rfl] at ht
    by_cases hv : testSchemaValid (mkNewTest db pid b) = true
    · rw [addTest_tests_of_valid db pid b hv] at ht
      rcases List.mem_append.1 ht with h1 | h2
      · exact h t h1
      · have ht2 : t = mkNewTest db pid b := by simpa using h2
        subst ht2
        unfold testSchemaValid at hv
        rcases (Bool.and_eq_true _ _).mp hv with ⟨h3, _⟩
        simpa using h3
    · rw [addTest_state_of_invalid db pid b hv] at ht
      exact h t ht
  | getTestsForPatient pid =>
    intro t ht
    rw [show applyOp db (.getTestsForPatient pid) = (getTestsForPatient db pid).2 from rfl,
      (read_ops_state db).2.2.2.2.1 pid] at ht
    exact h t ht
  | getTestById tid =>
    intro t ht
    rw [show applyOp db (.getTestById tid) = (getTestById db tid).2 from rfl,
      (read_ops_state db).2.2.2.2.2 tid] at ht
    exact h t ht
  | updateTest tid u =>
    intro t ht
    rw [show applyOp db (.updateTest tid u) = (updateTest db tid u).2 from rfl] at ht
    unfold updateTest at ht
    by_cases hv : testUpdateValid u = true
    · rw [if_pos hv] at ht
      cases hf : findTest db tid with
      | none => rw [hf] at ht; exact h t ht
      | some t0 =>
        rw [hf] at ht
        have ht' : t ∈ db.tests.map fun x =>
            if x.id == tid then applyTestUpdate u x else x := ht
        rcases List.mem_map.1 ht' with ⟨x, hx, rfl⟩
        by_cases hxid : (x.id == tid) = true
        · rw [if_pos hxid]
          show u.type.getD x.type ∈ validTestTypes
          unfold testUpdateValid at hv
          have hty := ((Bool.and_eq_true _ _).mp hv).1
          cases hut : u.type with
          | none => exact h x hx
          | some ty' =>
            rw [hut] at hty
            simpa using hty
        · rw [if_neg hxid]
          exact h x hx
    · rw [if_neg hv] at ht
      exact h t ht
  | deleteTest tid =>
    intro t ht
    rw [show applyOp db (.deleteTest tid) = (deleteTest db tid).2 from rfl] at ht
    unfold deleteTest at ht
    cases hf : findTest db tid with
    | none => rw [hf] at ht; exact h t ht
    | some t0 =>
      rw [hf] at ht
      exact h t (List.mem_of_mem_filter ht)

/-- C9 witness: the invariant holds of the concrete store `dbW` and is
preserved by a concrete test insertion. -/
theorem c9_test_type_enum_invariant_witness :
    TestsWellTyped dbW ∧
      TestsWellTyped
        (applyOp dbW (.addTest 0 { type := "Heartbeat Rate", value := "72" })) :=
  ⟨by decide,
   c9_test_type_enum_invariant dbW (.addTest 0 { type := "Heartbeat Rate", value := "72" })
     (by decide)⟩

/-- C10. The add-test operation builds the new test from only the path
patient id and the body's type and value: a client-supplied date or
patientId in the body is ignored (the result coincides with that for a
body carrying only type and value), the stored date is the insertion
time (the schema's `Date.now` default) and the stored patientId is the
path id; consequently, at recomputation time the just-inserted test is
the patient's most recent test. -/
theorem c10_addTest_ignores_body_date_and_patientId (db : DB) (pid : Nat)
    (b : AddTestBody)
    (hv : testSchemaValid (mkNewTest db pid b) = true)
    (hfresh : ∀ x ∈ db.tests, x.date < db.clock) :
    addTestForPatient db pid b =
      addTestForPatient db pid { type := b.type, value := b.value } ∧
    (mkNewTest db pid b).date = db.clock ∧
    (mkNewTest db pid b).patientId = pid ∧
    (addTestForPatient db pid b).1 = Resp.created (mkNewTest db pid b) ∧
    mostRecentTestFor (addTestForPatient db pid b).2 pid =
      some (mkNewTest db pid b) := by
  refine ⟨rfl, rfl, rfl, ?_, ?_⟩
  · unfold addTestForPatient
    rw [if_pos hv]
  · have hadd : (addTestForPatient db pid b).2 =
        updatePatientCriticalCondition
          { db with
            tests := db.tests ++ [mkNewTest db pid b]
            nextId := db.nextId + 1, clock := db.clock + 1 } pid := by
      unfold addTestForPatient
      rw [if_pos hv]
    rw [hadd]
    unfold mostRecentTestFor
    rw [updatePCC_tests]
    show (sortByDateDesc ((db.tests ++ [mkNewTest db pid b]).filter
      fun x => x.patientId == pid)).head? = _
    rw [List.filter_append]
    have hpid : ([mkNewTest db pid b].filter fun x => x.patientId == pid) =
        [mkNewTest db pid b] := by
      simp [mkNewTest]
    rw [hpid]
    refine head?_sortByDateDesc_of_fresh _ _ ?_
    intro x hx
    exact hfresh x (List.mem_of_mem_filter hx)

/-- C10 witness: a body carrying a bogus date and foreign patientId
produces the same result as the two-field body; the stored test carries
the path id and the insertion-time date and is the most recent at
recomputation time. -/
theorem c10_addTest_ignores_witness :
    (testSchemaValid
        (mkNewTest dbW 0
          { type := "Heartbeat Rate", value := "72", date := some 999, patientId := some 77 }) =
      true ∧
      (∀ x ∈ dbW.tests, x.date < dbW.clock)) ∧
    addTestForPatient dbW 0
        { type := "Heartbeat Rate", value := "72", date := some 999, patientId := some 77 } =
      addTestForPatient dbW 0 { type := "Heartbeat Rate", value := "72" } ∧
    (mkNewTest dbW 0
        { type := "Heartbeat Rate", value := "72", date := some 999, patientId := some 77 }).date =
      dbW.clock ∧
    (mkNewTest dbW 0
        { type := "Heartbeat Rate", value := "72", date := some 999, patientId := some 77 }).patientId =
      0 ∧
    mostRecentTestFor
        (addTestForPatient dbW 0
          { type := "Heartbeat Rate", value := "72", date := some 999, patientId := some 77 }).2 0 =
      some (mkNewTest dbW 0
        { type := "Heartbeat Rate", value := "72", date := some 999, patientId := some 77 }) := by
  have h := c10_addTest_ignores_body_date_and_patientId dbW 0
    { type := "Heartbeat Rate", value := "72", date := some 999, patientId := some 77 }
    (by decide) (by decide)
  exact ⟨⟨by decide, by decide⟩, h.1, h.2.1, h.2.2.1, h.2.2.2.2⟩

end WellCare
